import Mathlib

/-!
Shallow embedding of the GGprezzi tool (src/GieGi.py).

The program's logic is two functions: `load_excel` (clean a sheet by
dropping all-missing columns, then all-missing rows, and render it) and
`search_tuples` (parse a comma-separated search string, scan the cleaned
sheets for rows where every term occurs case-insensitively in some cell,
and render the matches showing the first and tenth column).

A pandas DataFrame cell is either a value (text or number) or missing
(NaN).  `dropna` keeps original row index labels, and `df.iterrows()`
yields those labels, which is what the code stores as `row_index`.
Python exceptions inside the `try` block of `search_tuples` are modelled
with `Except String`; list indexing is the only operation in the scan
that can raise, and it is modelled by `listGetE`.
-/

/-- A spreadsheet cell: text, an (integer) number, or missing (NaN). -/
inductive Cell where
  | text (s : String)
  | num (n : Int)
  | missing
deriving DecidableEq, Repr

/-- `str(val)` in Python: text prints itself, numbers print their decimal
form, and `str(nan)` is `"nan"`. -/
def Cell.pyStr : Cell → String
  | Cell.text s => s
  | Cell.num n => toString n
  | Cell.missing => "nan"

/-- Line 89 of GieGi.py: `str(val) if pd.notna(val) else ''`. -/
def Cell.cellStr : Cell → String
  | Cell.missing => ""
  | c => c.pyStr

/-- `pd.isna` on one cell. -/
def Cell.isMissing : Cell → Bool
  | Cell.missing => true
  | _ => false

/-- A sheet is the list of data rows of the DataFrame (header excluded),
each row a list of cells. -/
abbrev Sheet := List (List Cell)

/-- The sheet-name → sheet mapping returned by `pd.read_excel(..., sheet_name=None)`. -/
abbrev Workbook := List (String × Sheet)

/-- Cell of row `r` at column position `j` (missing when out of range,
matching the NaN padding of a DataFrame). -/
def cellAt (r : List Cell) (j : Nat) : Cell := r.getD j Cell.missing

/-- A row is dropped by `dropna(axis=0, how=\x27all\x27)` when all its cells are missing. -/
def rowAllMissing (r : List Cell) : Bool := r.all Cell.isMissing

/-- Number of columns of the sheet. -/
def sheetWidth (s : Sheet) : Nat := s.foldr (fun r a => max r.length a) 0

/-- A column is dropped by `dropna(axis=1, how=\x27all\x27)` when it is missing in every row. -/
def colAllMissing (s : Sheet) (j : Nat) : Bool := s.all (fun r => (cellAt r j).isMissing)

/-- Column positions kept by `df.dropna(axis=1, how=\x27all\x27)` (line 45 / line 79). -/
def keptCols (s : Sheet) : List Nat :=
  (List.range (sheetWidth s)).filter (fun j => !(colAllMissing s j))

/-- `df.dropna(axis=1, how=\x27all\x27)`: every row restricted to the kept columns. -/
def dropEmptyCols (s : Sheet) : Sheet := s.map (fun r => (keptCols s).map (cellAt r))

/-- `df.dropna(axis=0, how=\x27all\x27)`: drop the all-missing rows. -/
def dropEmptyRows (s : Sheet) : Sheet := s.filter (fun r => !(rowAllMissing r))

/-- The cleaning performed identically at lines 44-47 (render path) and
lines 78-80 (search path): drop all-missing columns, then all-missing rows. -/
def cleanSheet (s : Sheet) : Sheet := dropEmptyRows (dropEmptyCols s)

/-- `enumFrom k [a, b, ...] = [(k, a), (k+1, b), ...]`; pandas row labels
and Python `enumerate`. -/
def enumFrom (k : Nat) : List α → List (Nat × α)
  | [] => []
  | a :: as => (k, a) :: enumFrom (k + 1) as

/-- The cleaned sheet together with the pandas index label of each row.
`pd.read_excel` gives rows the labels `0..n-1`; `dropna` keeps labels, so
after cleaning each surviving row still carries its position in the raw
sheet, and `df.iterrows()` (line 87) yields these label/row pairs. -/
def cleanSheetIdx (s : Sheet) : List (Nat × List Cell) :=
  (enumFrom 0 (dropEmptyCols s)).filter (fun p => !(rowAllMissing p.2))

/-- `df.empty` after the two dropna calls: no rows or no columns remain. -/
def df_empty (s : Sheet) : Bool :=
  (cleanSheetIdx s).isEmpty || (keptCols s).isEmpty

/-- `Char.toLower` applied characterwise: Python `str.lower()` (ASCII range,
as in `Char.toLower`). -/
def pyLower (l : List Char) : List Char := l.map Char.toLower

/-- Does `needle` occur at the head of `hay`? -/
def leadMatch : List Char → List Char → Bool
  | [], _ => true
  | _ :: _, [] => false
  | c :: cs, h :: hs => c = h && leadMatch cs hs

/-- Python `needle in hay` on strings: contiguous-substring test. -/
def hasSub : List Char → List Char → Bool
  | n, [] => n.isEmpty
  | n, h :: hs => leadMatch n (h :: hs) || hasSub n hs

/-- Line 91: `search_val.lower() in row_val.lower()`. -/
def termInCell (search_val row_val : String) : Bool :=
  hasSub (pyLower search_val.data) (pyLower row_val.data)

/-- Python whitespace characters stripped by `str.strip()`. -/
def isPySpace (c : Char) : Bool := c.isWhitespace

/-- `str.strip()`: drop leading and trailing whitespace. -/
def py_strip (s : String) : String :=
  String.mk (((s.data.dropWhile isPySpace).reverse.dropWhile isPySpace).reverse)

/-- Helper for `str.split(\x27,\x27)`: accumulate the current piece (reversed). -/
def splitCommaAux (cur : List Char) : List Char → List (List Char)
  | [] => [cur.reverse]
  | c :: cs =>
    if c = ',' then cur.reverse :: splitCommaAux [] cs
    else splitCommaAux (c :: cur) cs

/-- Python `s.split(\x27,\x27)`: split on every comma; `"".split(\x27,\x27) == [""]`. -/
def py_split_comma (s : String) : List String :=
  (splitCommaAux [] s.data).map String.mk

/-- Line 70: `[val.strip() for val in search_tuple_str.split(\x27,\x27) if val.strip()]`. -/
def parse_search_values (search_tuple_str : String) : List String :=
  ((py_split_comma search_tuple_str).map py_strip).filter (fun v => v ≠ "")

/-- Line 89: the row converted to string values for comparison. -/
def row_values (row : List Cell) : List String := row.map Cell.cellStr

/-- Lines 91-93: every search value occurs in at least one cell string. -/
def found_all (search_values : List String) (row : List Cell) : Bool :=
  search_values.all (fun search_val =>
    (row_values row).any (fun row_val => termInCell search_val row_val))

/-- Lines 87-101: the label/row pairs of the cleaned sheet that satisfy
`found_all` (the entries appended to `matching_rows`). -/
def matching_rows (search_values : List String) (s : Sheet) : List (Nat × List Cell) :=
  (cleanSheetIdx s).filter (fun p => found_all search_values p.2)

/-- Lines 77-107 for one sheet: `None` when the cleaned sheet is empty
(line 82 `continue`) or no row matches; otherwise the entry appended to
`results`. -/
def sheet_result (search_values : List String) (p : String × Sheet) :
    Option (String × List (Nat × List Cell)) :=
  if df_empty p.2 then none
  else
    let m := matching_rows search_values p.2
    if m.isEmpty then none else some (p.1, m)

/-- The `results` list accumulated over all sheets. -/
def search_results (search_values : List String) (wb : Workbook) :
    List (String × List (Nat × List Cell)) :=
  wb.filterMap (sheet_result search_values)

/-- Python list indexing `l[i]`: raises `IndexError` out of range. -/
def listGetE (l : List α) (i : Nat) : Except String α :=
  match l[i]? with
  | some a => Except.ok a
  | none => Except.error "list index out of range"

/-- Sequential effectful map: the first raised error aborts the loop. -/
def mapME (f : α → Except String β) : List α → Except String (List β)
  | [] => Except.ok []
  | a :: as =>
    match f a with
    | Except.error e => Except.error e
    | Except.ok b =>
      match mapME f as with
      | Except.error e => Except.error e
      | Except.ok bs => Except.ok (b :: bs)

/-- Lines 122-126: always column 0, plus column 9 when the row has at
least 10 columns, otherwise the last column. -/
def col_indices (num_cols : Nat) : List Nat :=
  [0, if 10 ≤ num_cols then 9 else num_cols - 1]

/-- Line 129: `[values[i] for i in col_indices]`. -/
def selected_values (values : List Cell) : Except String (List Cell) :=
  mapME (listGetE values) (col_indices values.length)

/-- Line 139: one table cell of the result rendering. -/
def td_cell (c : Cell) : String :=
  "<td style=\x27border: 1px solid #ddd; padding: 8px;\x27>" ++ c.pyStr ++ "</td>"

/-- Lines 117-140: the rendering of one matching row (`i` is the
`enumerate` counter, `p` the stored label/values pair). -/
def row_block (file_type sheet_name : String) (i : Nat) (p : Nat × List Cell) :
    Except String String :=
  match selected_values p.2 with
  | Except.error e => Except.error e
  | Except.ok sel =>
    let checkbox_id :=
      "checkbox_" ++ file_type ++ "_" ++ sheet_name ++ "_" ++ toString p.1 ++ "_" ++ toString i
    Except.ok ("<p><input type=\x27checkbox\x27 id=\x27" ++ checkbox_id ++
      "\x27><label for=\x27" ++ checkbox_id ++ "\x27>" ++
      "<b>Row " ++ toString p.1 ++ ":</b></label></p>" ++
      "<table border=\x271\x27 style=\x27border-collapse: collapse;\x27>" ++
      "<tr>" ++ String.join (sel.map td_cell) ++ "</tr></table><br>")

/-- Lines 114-140: the rendering of one sheet of `results`. -/
def sheet_block (file_type : String) (r : String × List (Nat × List Cell)) :
    Except String String :=
  match mapME (fun q => row_block file_type r.1 q.1 q.2) (enumFrom 0 r.2) with
  | Except.error e => Except.error e
  | Except.ok rows => Except.ok ("<h4>Sheet: " ++ r.1 ++ "</h4>" ++ String.join rows)

/-- The body of the `try` block of `search_tuples` (lines 68-142). -/
def search_body (wb : Workbook) (search_tuple_str file_type : String) :
    Except String String :=
  let search_values := parse_search_values search_tuple_str
  if search_values.isEmpty then Except.ok "No search values provided"
  else
    let results := search_results search_values wb
    if results.isEmpty then Except.ok "No rows found matching the search criteria"
    else
      match mapME (sheet_block file_type) results with
      | Except.error e => Except.error e
      | Except.ok blocks =>
        Except.ok ("<h3>" ++ file_type ++ " Search Results</h3>" ++ String.join blocks)

/-- Lines 144-145: `except Exception as e: return f"Error during search: ..."`. -/
def catch_search (b : Except String String) : String :=
  match b with
  | Except.ok s => s
  | Except.error e => "Error during search: " ++ e

/-- `search_tuples` (lines 61-145).  The `if not sheets` check (line 65)
precedes the `try` block, so it fires for an absent (`None`) or empty
mapping before the search string is even parsed. -/
def search_tuples (sheets : Option Workbook) (search_tuple_str file_type : String) :
    String :=
  match sheets with
  | none => "No data to search"
  | some wb =>
    if wb.isEmpty then "No data to search"
    else catch_search (search_body wb search_tuple_str file_type)

/-- Modelled from the spec: `df.to_html(index=False, table_id=...)` is
pandas-library rendering, absent from src; per §4.1 it renders the cleaned
sheet as an HTML-style table of its body rows (no row indices shown). -/
def df_to_html (table_id : String) (s : Sheet) : String :=
  "<table id=\x27" ++ table_id ++ "\x27>" ++
    String.join (s.map (fun r =>
      "<tr>" ++ String.join (r.map (fun c => "<td>" ++ c.pyStr ++ "</td>")) ++ "</tr>")) ++
  "</table>"

/-- Lines 43-55: the rendering of one sheet in `load_excel`, after the
same dropna cleaning as the search path. -/
def sheet_html (file_type sheet_name : String) (s : Sheet) : String :=
  if df_empty s then
    "<h3>Sheet: " ++ sheet_name ++ "</h3><p>No data available after cleaning</p>"
  else
    "<h3>Sheet: " ++ sheet_name ++ "</h3>" ++
      df_to_html (file_type ++ "_" ++ sheet_name) (cleanSheet s)

/-- `load_excel` after a successful `pd.read_excel` (lines 41-57): builds
the HTML from cleaned copies and returns the raw `sheets` mapping
unchanged (`return html_content, sheets`). -/
def load_excel (file_name file_type : String) (sheets : Workbook) : String × Workbook :=
  ("<h2>" ++ file_type ++ " File: " ++ file_name ++ "</h2>" ++
    String.join (sheets.map (fun p => sheet_html file_type p.1 p.2)), sheets)

/-- A concrete raw sheet whose first row is entirely missing: after
cleaning, the surviving data row sits at position 0 of the cleaned sheet
but keeps the pandas label 1. -/
def exSheet : Sheet := [[Cell.missing], [Cell.text "abc"]]

theorem leadMatch_iff : ∀ (n h : List Char), leadMatch n h = true ↔ n <+: h
  | [], h => by simp [leadMatch]
  | c :: cs, [] => by simp [leadMatch]
  | c :: cs, x :: xs => by
    simp [leadMatch, List.cons_prefix_cons, leadMatch_iff cs xs, Bool.and_eq_true,
      decide_eq_true_iff]

theorem hasSub_iff : ∀ (n h : List Char), hasSub n h = true ↔ n <:+: h
  | n, [] => by simp [hasSub, List.isEmpty_iff]
  | n, x :: xs => by
    simp [hasSub, Bool.or_eq_true, leadMatch_iff, hasSub_iff n xs, List.infix_cons_iff]

/-- The spec's matching rule (§4.1 / §8), stated from its words: every
term is a case-insensitive substring of the string form of at least one
cell of the row, missing cells converting to the empty string. -/
def SpecRowMatches (terms : List String) (row : List Cell) : Prop :=
  ∀ t ∈ terms, ∃ c ∈ row, pyLower t.data <:+: pyLower (Cell.cellStr c).data

theorem found_all_iff (terms : List String) (row : List Cell) :
    found_all terms row = true ↔ SpecRowMatches terms row := by
  simp [found_all, SpecRowMatches, row_values, termInCell, List.all_eq_true,
    List.any_map, List.any_eq_true, hasSub_iff, Function.comp]

theorem mem_enumFrom : ∀ (l : List α) (k i : Nat) (a : α),
    (i, a) ∈ enumFrom k l → ∃ j, i = k + j ∧ l[j]? = some a
  | [], _, _, _ => by simp [enumFrom]
  | b :: bs, k, i, a => by
    intro h
    rcases List.mem_cons.mp h with h1 | h2
    · refine ⟨0, ?_, ?_⟩
      · simpa using congrArg Prod.fst h1
      · have := congrArg Prod.snd h1
        simp at this
        simp [this]
    · obtain ⟨j, hj1, hj2⟩ := mem_enumFrom bs (k + 1) i a h2
      exact ⟨j + 1, by omega, by simpa using hj2⟩

theorem mem_enumFrom_snd : ∀ (l : List α) (k : Nat) (p : Nat × α),
    p ∈ enumFrom k l → p.2 ∈ l
  | [], _, _ => by simp [enumFrom]
  | b :: bs, k, p => by
    intro h
    rcases List.mem_cons.mp h with h1 | h2
    · subst h1; exact List.mem_cons_self _ _
    · exact List.mem_cons_of_mem _ (mem_enumFrom_snd bs (k + 1) p h2)

theorem filter_enumFrom_snd (q : α → Bool) : ∀ (l : List α) (k : Nat),
    ((enumFrom k l).filter (fun p => q p.2)).map Prod.snd = l.filter q
  | [], _ => rfl
  | a :: as, k => by
    by_cases h : q a
    · simp [enumFrom, List.filter_cons, h, filter_enumFrom_snd q as (k + 1)]
    · simp [enumFrom, List.filter_cons, h, filter_enumFrom_snd q as (k + 1)]

theorem cleanSheet_eq_idx (s : Sheet) :
    cleanSheet s = (cleanSheetIdx s).map Prod.snd :=
  (filter_enumFrom_snd (fun r => !(rowAllMissing r)) (dropEmptyCols s) 0).symm

theorem matching_rows_mem_iff (terms : List String) (s : Sheet) (p : Nat × List Cell) :
    p ∈ matching_rows terms s ↔ p ∈ cleanSheetIdx s ∧ found_all terms p.2 = true := by
  simp [matching_rows, List.mem_filter]

theorem mem_cleanSheetIdx_not_missing (s : Sheet) (p : Nat × List Cell)
    (h : p ∈ cleanSheetIdx s) : rowAllMissing p.2 = false := by
  have h2 := (List.mem_filter.mp h).2
  simpa using h2

theorem mem_cleanSheetIdx_orig (s : Sheet) (i : Nat) (row : List Cell)
    (h : (i, row) ∈ cleanSheetIdx s) :
    ∃ r0, s[i]? = some r0 ∧ row = (keptCols s).map (cellAt r0) := by
  have h1 := (List.mem_filter.mp h).1
  obtain ⟨j, hj1, hj2⟩ := mem_enumFrom (dropEmptyCols s) 0 i row h1
  have hij : i = j := by omega
  subst hij
  rw [dropEmptyCols, List.getElem?_map] at hj2
  cases hs : s[i]? with
  | none => rw [hs] at hj2; simp at hj2
  | some r0 =>
    rw [hs] at hj2
    simp at hj2
    exact ⟨r0, rfl, hj2.symm⟩

theorem rowAllMissing_false_pos (row : List Cell) (h : rowAllMissing row = false) :
    0 < row.length := by
  cases row with
  | nil => simp [rowAllMissing] at h
  | cons a as => simp

theorem col_indices_lt (L : Nat) (hL : 0 < L) : ∀ j ∈ col_indices L, j < L := by
  intro j hj
  by_cases h10 : 10 ≤ L
  · simp [col_indices, h10] at hj
    rcases hj with h | h <;> omega
  · simp [col_indices, h10] at hj
    rcases hj with h | h <;> omega

theorem listGetE_eq (l : List Cell) (j : Nat) (h : j < l.length) :
    listGetE l j = Except.ok (cellAt l j) := by
  simp [listGetE, cellAt, List.getElem?_eq_getElem h]

theorem selected_values_eq (row : List Cell) (h : 0 < row.length) :
    selected_values row =
      Except.ok ((col_indices row.length).map (fun j => cellAt row j)) := by
  have hall := col_indices_lt row.length h
  have h0 : listGetE row 0 = Except.ok (cellAt row 0) :=
    listGetE_eq row 0 (hall 0 (by simp [col_indices]))
  by_cases h10 : 10 ≤ row.length
  · have h9 : listGetE row 9 = Except.ok (cellAt row 9) :=
      listGetE_eq row 9 (hall 9 (by simp [col_indices, h10]))
    simp [selected_values, col_indices, h10, mapME, h0, h9]
  · have hlast : listGetE row (row.length - 1) =
        Except.ok (cellAt row (row.length - 1)) :=
      listGetE_eq row (row.length - 1) (hall _ (by simp [col_indices, h10]))
    simp [selected_values, col_indices, h10, mapME, h0, hlast]

theorem mapME_ok {α β : Type} (f : α → Except String β) :
    ∀ l : List α, (∀ a ∈ l, ∃ b, f a = Except.ok b) →
      ∃ bs, mapME f l = Except.ok bs
  | [], _ => ⟨[], rfl⟩
  | a :: as, h => by
    obtain ⟨b, hb⟩ := h a (List.mem_cons_self a as)
    obtain ⟨bs, hbs⟩ := mapME_ok f as (fun x hx => h x (List.mem_cons_of_mem a hx))
    exact ⟨b :: bs, by simp [mapME, hb, hbs]⟩

theorem mem_search_results (terms : List String) (wb : Workbook)
    (r : String × List (Nat × List Cell)) (h : r ∈ search_results terms wb) :
    ∃ s : Sheet, (r.1, s) ∈ wb ∧ r.2 = matching_rows terms s := by
  rw [search_results, List.mem_filterMap] at h
  obtain ⟨p, hp, hres⟩ := h
  by_cases h1 : df_empty p.2
  · simp [sheet_result, h1] at hres
  · by_cases h2 : (matching_rows terms p.2).isEmpty
    · simp [sheet_result, h1, h2] at hres
    · simp [sheet_result, h1, h2] at hres
      refine ⟨p.2, ?_, ?_⟩
      · rw [← hres]; exact hp
      · rw [← hres]

theorem row_block_ok (ft sn : String) (i : Nat) (p : Nat × List Cell)
    (h : rowAllMissing p.2 = false) : ∃ out, row_block ft sn i p = Except.ok out := by
  have hs := selected_values_eq p.2 (rowAllMissing_false_pos p.2 h)
  simp [row_block, hs]

theorem sheet_block_ok (ft : String) (terms : List String) (s : Sheet)
    (r : String × List (Nat × List Cell)) (hr : r.2 = matching_rows terms s) :
    ∃ out, sheet_block ft r = Except.ok out := by
  have hrows : ∃ rows,
      mapME (fun q => row_block ft r.1 q.1 q.2) (enumFrom 0 r.2) = Except.ok rows := by
    apply mapME_ok
    intro q hq
    have hm : q.2 ∈ r.2 := mem_enumFrom_snd r.2 0 q hq
    rw [hr] at hm
    have h1 : q.2 ∈ cleanSheetIdx s := ((matching_rows_mem_iff terms s q.2).mp hm).1
    exact row_block_ok ft r.1 q.1 q.2 (mem_cleanSheetIdx_not_missing s q.2 h1)
  obtain ⟨rows, hrows⟩ := hrows
  simp [sheet_block, hrows]

theorem search_body_ok (wb : Workbook) (str ft : String) :
    ∃ out, search_body wb str ft = Except.ok out := by
  rw [search_body]
  by_cases h1 : (parse_search_values str).isEmpty
  · simp [h1]
  · by_cases h2 : (search_results (parse_search_values str) wb).isEmpty
    · simp [h1, h2]
    · have hblocks : ∃ bs,
          mapME (sheet_block ft) (search_results (parse_search_values str) wb) =
            Except.ok bs := by
        apply mapME_ok
        intro r hr
        obtain ⟨s, _, hr2⟩ := mem_search_results (parse_search_values str) wb r hr
        exact sheet_block_ok ft (parse_search_values str) s r hr2
      obtain ⟨bs, hbs⟩ := hblocks
      simp [h1, h2, hbs]

/-- C1: for every non-empty term list, a row of a cleaned sheet is
reported as a match by the Row Matcher if and only if every term is a
case-insensitive substring of the string form of at least one cell of
that row, missing cells converting to the empty string. -/
theorem C1_row_match_iff (terms : List String) (s : Sheet) (i : Nat) (row : List Cell)
    (hterms : terms ≠ []) (hmem : (i, row) ∈ cleanSheetIdx s) :
    (i, row) ∈ matching_rows terms s ↔ SpecRowMatches terms row := by
  rw [matching_rows_mem_iff]
  simp [hmem, found_all_iff]

theorem C1_witness :
    (0, [Cell.text "Widget"]) ∈ matching_rows ["idge"] [[Cell.text "Widget"]] :=
  (C1_row_match_iff ["idge"] [[Cell.text "Widget"]] 0 [Cell.text "Widget"]
    (by decide) (by decide)).mpr
    ((found_all_iff ["idge"] [Cell.text "Widget"]).mp (by decide))

/-- C2 counterexample: with an absent Workbook and a term list that
parses to empty, `search_tuples` returns "No data to search", not
"No search values provided": the `not sheets` check precedes parsing. -/
theorem C2_counterexample :
    search_tuples none " , " "Inventario" ≠ "No search values provided" ∧
    search_tuples none " , " "Inventario" = "No data to search" := by
  exact ⟨by decide, rfl⟩

/-- C2 amended: for every search string whose parsed term list is empty
and every present, non-empty Workbook, the Row Matcher returns the
literal "No search values provided" result. -/
theorem C2_amended_empty_terms (wb : Workbook) (str ft : String)
    (hwb : wb.isEmpty = false) (hterms : parse_search_values str = []) :
    search_tuples (some wb) str ft = "No search values provided" := by
  simp [search_tuples, hwb, catch_search, search_body, hterms]

theorem C2_witness :
    search_tuples (some [("S", [[Cell.text "x"]])]) " , " "Inventario" =
      "No search values provided" :=
  C2_amended_empty_terms [("S", [[Cell.text "x"]])] " , " "Inventario" rfl (by decide)

set_option maxRecDepth 100000 in
/-- C3 counterexample: in `exSheet` the all-missing row 0 is dropped by
cleaning, so the surviving data row is at position 0 of the cleaned sheet
(which has exactly one row), yet the match carries index 1 and the
rendered output says "Row 1:", not "Row 0:": the reported index is the
pandas label from the originally parsed sheet, not the cleaned position. -/
theorem C3_counterexample :
    matching_rows ["abc"] exSheet = [(1, [Cell.text "abc"])] ∧
    cleanSheet exSheet = [[Cell.text "abc"]] ∧
    hasSub "Row 1:".data (search_tuples (some [("S", exSheet)]) "abc" "Inventario").data
      = true ∧
    hasSub "Row 0:".data (search_tuples (some [("S", exSheet)]) "abc" "Inventario").data
      = false := by
  refine ⟨rfl, rfl, rfl, rfl⟩

/-- C3 amended: the row index included in a match (and shown as
"Row <index>") is the row's index in the originally parsed sheet — the
pandas label preserved by dropna — and the match's cell values are the
cleaned (kept-columns) form of the original row at that index; the index
can differ from the row's position within the cleaned sheet. -/
theorem C3_amended_original_index (terms : List String) (s : Sheet) (i : Nat)
    (row : List Cell) (h : (i, row) ∈ matching_rows terms s) :
    ∃ r0, s[i]? = some r0 ∧ row = (keptCols s).map (cellAt r0) :=
  mem_cleanSheetIdx_orig s i row ((matching_rows_mem_iff terms s (i, row)).mp h).1

theorem C3_witness :
    ∃ r0, exSheet[1]? = some r0 ∧
      [Cell.text "abc"] = (keptCols exSheet).map (cellAt r0) :=
  C3_amended_original_index ["abc"] exSheet 1 [Cell.text "abc"] (by decide)

/-- C4: for every matching row with L columns, the display indices are
exactly [0, 9] when L ≥ 10 and exactly [0, L-1] when L < 10, and the
selected cell values are the row's values at those indices. -/
theorem C4_column_selection (terms : List String) (s : Sheet) (i : Nat)
    (row : List Cell) (h : (i, row) ∈ matching_rows terms s) :
    (10 ≤ row.length → col_indices row.length = [0, 9]) ∧
    (row.length < 10 → col_indices row.length = [0, row.length - 1]) ∧
    selected_values row =
      Except.ok ((col_indices row.length).map (fun j => cellAt row j)) := by
  have h1 := ((matching_rows_mem_iff terms s (i, row)).mp h).1
  have hpos := rowAllMissing_false_pos row (mem_cleanSheetIdx_not_missing s (i, row) h1)
  refine ⟨?_, ?_, selected_values_eq row hpos⟩
  · intro h10
    simp [col_indices, h10]
  · intro h10
    simp [col_indices, Nat.not_le.mpr h10]

theorem C4_witness :
    (10 ≤ ([Cell.text "abc"] : List Cell).length →
      col_indices ([Cell.text "abc"] : List Cell).length = [0, 9]) ∧
    (([Cell.text "abc"] : List Cell).length < 10 →
      col_indices ([Cell.text "abc"] : List Cell).length =
        [0, ([Cell.text "abc"] : List Cell).length - 1]) ∧
    selected_values [Cell.text "abc"] =
      Except.ok ((col_indices ([Cell.text "abc"] : List Cell).length).map
        (fun j => cellAt [Cell.text "abc"] j)) :=
  C4_column_selection ["abc"] exSheet 1 [Cell.text "abc"] (by decide)

/-- C5: the cleaning (shared by the render and search paths) drops
all-missing columns first, then all-missing rows; the cleaned sheet has
no all-missing row, and every kept column position has a non-missing cell
in some cleaned row. -/
theorem C5_cleaning_invariant (s : Sheet) :
    cleanSheet s = dropEmptyRows (dropEmptyCols s) ∧
    cleanSheet s = (cleanSheetIdx s).map Prod.snd ∧
    (∀ row ∈ cleanSheet s, rowAllMissing row = false) ∧
    (∀ j, j < (keptCols s).length →
      ∃ row ∈ cleanSheet s, (cellAt row j).isMissing = false) := by
  refine ⟨rfl, cleanSheet_eq_idx s, ?_, ?_⟩
  · intro row hrow
    have h2 := (List.mem_filter.mp hrow).2
    simpa using h2
  · intro j hj
    have hkmem : (keptCols s)[j] ∈ keptCols s := List.getElem_mem hj
    have hkmem2 := hkmem
    unfold keptCols at hkmem2
    have hcol : colAllMissing s ((keptCols s)[j]) = false := by
      have h2 := (List.mem_filter.mp hkmem2).2
      simpa using h2
    obtain ⟨r0, hr0, hr0m⟩ :
        ∃ r0 ∈ s, (cellAt r0 ((keptCols s)[j])).isMissing = false := by
      by_contra hcon
      push_neg at hcon
      have hall : colAllMissing s ((keptCols s)[j]) = true := by
        rw [colAllMissing, List.all_eq_true]
        intro r hr
        have h3 := hcon r hr
        simpa using h3
      rw [hall] at hcol
      cases hcol
    have hrmiss : rowAllMissing ((keptCols s).map (cellAt r0)) = false := by
      by_contra h3
      rw [Bool.not_eq_false, rowAllMissing, List.all_eq_true] at h3
      have h4 := h3 (cellAt r0 ((keptCols s)[j]))
        (List.mem_map.mpr ⟨(keptCols s)[j], hkmem, rfl⟩)
      rw [hr0m] at h4
      cases h4
    refine ⟨(keptCols s).map (cellAt r0), ?_, ?_⟩
    · rw [cleanSheet, dropEmptyRows, List.mem_filter]
      refine ⟨List.mem_map.mpr ⟨r0, hr0, rfl⟩, ?_⟩
      simp [hrmiss]
    · have hjlen2 : j < ((keptCols s).map (cellAt r0)).length := by simpa using hj
      have hcell : cellAt ((keptCols s).map (cellAt r0)) j =
          cellAt r0 ((keptCols s)[j]) := by
        rw [cellAt, List.getD_eq_getElem?_getD, List.getElem?_eq_getElem hjlen2]
        simp
      rw [hcell, hr0m]

theorem C5_witness :
    ∃ row ∈ cleanSheet exSheet, (cellAt row 0).isMissing = false :=
  (C5_cleaning_invariant exSheet).2.2.2 0 (by decide)

/-- C6: for every search string, an absent (`None`) or empty Workbook
makes `search_tuples` return the literal "No data to search" result. -/
theorem C6_no_data (str ft : String) :
    search_tuples none str ft = "No data to search" ∧
    search_tuples (some []) str ft = "No data to search" :=
  ⟨rfl, rfl⟩

/-- C7: every error raised inside the scan body is caught and surfaced as
"Error during search: <detail>", and for every present non-empty Workbook
the search result routes through this catch, so no exception reaches the
caller. -/
theorem C7_error_caught :
    (∀ (b : Except String String) (e : String), b = Except.error e →
      catch_search b = "Error during search: " ++ e) ∧
    (∀ (wb : Workbook) (str ft : String), wb.isEmpty = false →
      search_tuples (some wb) str ft = catch_search (search_body wb str ft)) := by
  constructor
  · intro b e hb
    rw [hb]
    rfl
  · intro wb str ft hwb
    simp [search_tuples, hwb]

theorem C7_witness :
    catch_search (Except.error "boom") = "Error during search: boom" :=
  C7_error_caught.1 (Except.error "boom") "boom" rfl

/-- C8: neither rendering nor searching mutates the caller's Workbook:
`load_excel` returns the raw mapping unchanged alongside the HTML, and
searching the returned mapping gives the same result as searching the
original. -/
theorem C8_no_mutation (file_name file_type search_str ft2 : String) (wb : Workbook) :
    (load_excel file_name file_type wb).2 = wb ∧
    search_tuples (some (load_excel file_name file_type wb).2) search_str ft2 =
      search_tuples (some wb) search_str ft2 :=
  ⟨rfl, rfl⟩

/-- C9: a sheet that is fully empty after cleaning renders as the
"No data available after cleaning" notice, yields no entry in `results`,
and its presence in a Workbook leaves the search results unchanged. -/
theorem C9_empty_sheet (file_type name : String) (s : Sheet) (terms : List String)
    (h : cleanSheet s = []) :
    sheet_html file_type name s =
      "<h3>Sheet: " ++ name ++ "</h3><p>No data available after cleaning</p>" ∧
    sheet_result terms (name, s) = none ∧
    (∀ wb1 wb2 : Workbook,
      search_results terms (wb1 ++ (name, s) :: wb2) =
        search_results terms (wb1 ++ wb2)) := by
  have hidx : cleanSheetIdx s = [] := by
    have h2 := cleanSheet_eq_idx s
    rw [h] at h2
    exact List.map_eq_nil_iff.mp h2.symm
  have hde : df_empty s = true := by simp [df_empty, hidx]
  refine ⟨?_, ?_, ?_⟩
  · simp [sheet_html, hde]
  · simp [sheet_result, hde]
  · intro wb1 wb2
    simp [search_results, List.filterMap_append, List.filterMap_cons, sheet_result, hde]

theorem C9_witness :
    sheet_html "Inventario" "S" [[Cell.missing]] =
      "<h3>Sheet: S</h3><p>No data available after cleaning</p>" ∧
    sheet_result ["x"] ("S", [[Cell.missing]]) = none ∧
    (∀ wb1 wb2 : Workbook,
      search_results ["x"] (wb1 ++ ("S", [[Cell.missing]]) :: wb2) =
        search_results ["x"] (wb1 ++ wb2)) :=
  C9_empty_sheet "Inventario" "S" [[Cell.missing]] ["x"] (by decide)

/-- C10: for every matching row the display-column indices are strictly
within the row's bounds, and the scan body never reaches its error
branch: it returns `Except.ok` on every input. -/
theorem C10_index_safety :
    (∀ (terms : List String) (s : Sheet) (i : Nat) (row : List Cell),
      (i, row) ∈ matching_rows terms s →
        ∀ j ∈ col_indices row.length, j < row.length) ∧
    (∀ (wb : Workbook) (str ft : String),
      ∃ out, search_body wb str ft = Except.ok out) := by
  constructor
  · intro terms s i row h j hj
    have h1 := ((matching_rows_mem_iff terms s (i, row)).mp h).1
    exact col_indices_lt row.length
      (rowAllMissing_false_pos row (mem_cleanSheetIdx_not_missing s (i, row) h1)) j hj
  · intro wb str ft
    exact search_body_ok wb str ft

theorem C10_witness : 0 < ([Cell.text "abc"] : List Cell).length :=
  C10_index_safety.1 ["abc"] exSheet 1 [Cell.text "abc"] (by decide) 0 (by decide)
